import Mathlib

/-!
Verification development for the `aws-news-mcp` repository: a shallow
embedding of its two server modules (`streamable-HTTP-server/main.py` and
`studio/main.py`) — the query builder `fetch_aws_news`, the feed pipeline
`get_aws_feed_news`, and the tool façade operations — together with theorems
settling the behavioural claims about them.  External collaborators (the
HTTP client, the RSS parser, CPython library routines) are modelled as
explicit oracles or as small executable functions documented at their
definitions; everything taken from the repository's own code mirrors the
Python source line by line.
-/

namespace AwsNews

/-- Models the Python expression `needle in hay` on strings: `true` iff
`needle` occurs as a contiguous substring of `hay` (the empty needle always
occurs).  Character-list recursion so that concrete instances reduce. -/
def pyInAux (needle : List Char) : List Char → Bool
  | [] => needle.isPrefixOf []
  | c :: t => needle.isPrefixOf (c :: t) || pyInAux needle t

/-- Python `needle in hay` for strings. -/
def pyIn (needle hay : String) : Bool :=
  pyInAux needle.data hay.data

/-- Models CPython `str.lower()` (ASCII case mapping, which is all the
source's inputs exercise). -/
def pyLower (s : String) : String := ⟨s.data.map Char.toLower⟩

/-- Models CPython `str.replace("Z", "+00:00")`: every occurrence of the
single-character pattern `"Z"` is replaced. -/
def pyReplaceZ (s : String) : String :=
  ⟨s.data.flatMap (fun c => if c = 'Z' then "+00:00".data else [c])⟩

/-- Models CPython `str(b)` for a bool (`"True"` / `"False"`), the form
`urlencode` renders boolean parameter values in. -/
def pyBoolStr (b : Bool) : String := if b then "True" else "False"

/-- Models CPython `repr` of a string that contains no quote or escape
characters: the text wrapped in single quotes.  Used only for the message of
the `ValueError` that `datetime.fromisoformat` raises. -/
def pyRepr (s : String) : String :=
  String.singleton (Char.ofNat 39) ++ s ++ String.singleton (Char.ofNat 39)

/-! ### A model of `datetime.fromisoformat`

`datetime.fromisoformat` is CPython library code, not repository code; the
repository only uses it as a validity test (its return value is discarded).
`isoValid` is an executable model of that test on the grammar the repository
exercises: `YYYY-MM-DD`, optionally followed by a one-character separator and
`HH:MM[:SS[.digits]]`, optionally followed by a UTC offset `±HH:MM`.  The
theorems below use `isoValid` only as the embedded code does — as an opaque
accept/reject test — so their truth does not depend on the exact grammar,
only the concrete witnesses do. -/

/-- Parse exactly two decimal digits, returning their value and the rest. -/
def parse2 : List Char → Option (Nat × List Char)
  | a :: b :: rest =>
    if a.isDigit && b.isDigit then
      some ((a.toNat - 48) * 10 + (b.toNat - 48), rest)
    else none
  | _ => none

/-- Parse exactly four decimal digits, returning their value and the rest. -/
def parse4 : List Char → Option (Nat × List Char)
  | a :: b :: c :: d :: rest =>
    if a.isDigit && b.isDigit && c.isDigit && d.isDigit then
      some (((a.toNat - 48) * 1000 + (b.toNat - 48) * 100
             + (c.toNat - 48) * 10 + (d.toNat - 48)), rest)
    else none
  | _ => none

def isLeapYear (y : Nat) : Bool :=
  y % 4 = 0 && (y % 100 ≠ 0 || y % 400 = 0)

def daysInMonth (y m : Nat) : Nat :=
  if m = 2 then (if isLeapYear y then 29 else 28)
  else if m = 4 || m = 6 || m = 9 || m = 11 then 30
  else 31

/-- Parse a calendar date `YYYY-MM-DD` with range checks, returning the rest. -/
def parseDate (cs : List Char) : Option (List Char) := do
  let (y, cs) ← parse4 cs
  match cs with
  | '-' :: cs =>
    let (m, cs) ← parse2 cs
    match cs with
    | '-' :: cs =>
      let (d, cs) ← parse2 cs
      if 1 ≤ y && 1 ≤ m && m ≤ 12 && 1 ≤ d && d ≤ daysInMonth y m then
        some cs
      else none
    | _ => none
  | _ => none

/-- Parse a time `HH:MM[:SS[.digit+]]` with range checks, returning the rest. -/
def parseTime (cs : List Char) : Option (List Char) := do
  let (h, cs) ← parse2 cs
  match cs with
  | ':' :: cs =>
    let (m, cs) ← parse2 cs
    if h ≤ 23 && m ≤ 59 then
      match cs with
      | ':' :: cs => do
        let (s, cs) ← parse2 cs
        if s ≤ 59 then
          match cs with
          | '.' :: cs =>
            let frac := cs.takeWhile Char.isDigit
            if frac.isEmpty then none else some (cs.dropWhile Char.isDigit)
          | _ => some cs
        else none
      | _ => some cs
    else none
  | _ => none

/-- Accept an optional trailing UTC offset `±HH:MM` closing the string. -/
def parseOffsetEnd (cs : List Char) : Bool :=
  match cs with
  | [] => true
  | sign :: rest =>
    (sign = '+' || sign = '-') &&
      (match parse2 rest with
       | some (h, ':' :: rest2) =>
         (match parse2 rest2 with
          | some (m, []) => h ≤ 23 && m ≤ 59
          | _ => false)
       | _ => false)

/-- The validity test the repository delegates to `datetime.fromisoformat`. -/
def isoValid (s : String) : Bool :=
  match parseDate s.data with
  | none => false
  | some [] => true
  | some (_sep :: rest) =>
    match parseTime rest with
    | none => false
    | some rest2 => parseOffsetEnd rest2

/-! ### Query Builder (`fetch_aws_news`, both variants)

Both `main.py` files build the same parameter dict in the same insertion
order: `page_size`, `hide_regional_expansions`, `search`, then optionally
`article_type`, then optionally `since`.  We embed the dict as an
association list in insertion order, with values already rendered to the
strings `urlencode` would emit.  The two variants differ only in how a
`since_date` that fails `datetime.fromisoformat` surfaces: the
streamable-HTTP-server variant catches the `ValueError` and re-raises one
with a fixed message, the studio variant lets the parser's own `ValueError`
propagate. -/

/-- The article-type filter both variants compute from `news_type`
(`main.py`: `if news_type.lower() == "news" ... elif ... in ("blogs", "blog")`). -/
def articleTypeFilter (news_type : String) : Option String :=
  if pyLower news_type = "news" then some "news"
  else if pyLower news_type = "blogs" || pyLower news_type = "blog" then some "blog"
  else none

/-- The unconditional part of the parameter dict plus the optional
`article_type` entry, in insertion order. -/
def baseParams (topic news_type : String) (include_regional_expansions : Bool)
    (limit : Int) : List (String × String) :=
  [("page_size", toString limit),
   ("hide_regional_expansions", pyBoolStr (!include_regional_expansions)),
   ("search", topic)]
  ++ (match articleTypeFilter news_type with
      | some t => [("article_type", t)]
      | none => [])

/-- The fixed message of the `ValueError` the streamable-HTTP-server variant
raises on an invalid `since_date`. -/
def invalidDateMsg : String :=
  "Invalid date format. Please use ISO 8601 format (e.g., 2025-05-01T00:00:00Z)"

/-- The message of the `ValueError` that CPython's `datetime.fromisoformat`
itself raises (modelled; the studio variant lets it propagate uncaught). -/
def fromisoformatErrMsg (s : String) : String :=
  "Invalid isoformat string: " ++ pyRepr s

/-- articles returned by the remote news API: opaque JSON, passed through
verbatim (the code never inspects it).  Represented by its serialized text. -/
abbrev ArticlesJson : Type := String

/-- A `GET` against `https://api.aws-news.com/articles` with the given query
parameters, as seen by `fetch_aws_news`: success yields the parsed JSON body,
failure (non-2xx via `raise_for_status`, network fault, JSON decode error)
yields the exception's message.  This oracle stands for httpx, an external
collaborator. -/
abbrev HttpOracle : Type := List (String × String) → Except String ArticlesJson

namespace Streamable

/-- The `since_date` handling of `streamable-HTTP-server/main.py`
`fetch_aws_news` lines 60–68: Python's `if since_date:` skips `None` and the
empty string; otherwise `datetime.fromisoformat(since_date.replace("Z",
"+00:00"))` validates, a `ValueError` is caught and re-raised with the fixed
message, and on success the original string is added as `"since"`. -/
def sinceParams (since_date : Option String) : Except String (List (String × String)) :=
  match since_date with
  | none => .ok []
  | some s =>
    if s = "" then .ok []
    else if isoValid (pyReplaceZ s) then .ok [("since", s)]
    else .error invalidDateMsg

/-- `fetch_aws_news` of `streamable-HTTP-server/main.py`: build the
parameters, then perform the single outbound GET.  A builder failure never
reaches the oracle. -/
def fetch_aws_news (topic : String) (news_type : String) (include_regional_expansions : Bool)
    (limit : Int) (since_date : Option String) (http : HttpOracle) :
    Except String ArticlesJson :=
  match sinceParams since_date with
  | .error e => .error e
  | .ok sp => http (baseParams topic news_type include_regional_expansions limit ++ sp)

end Streamable

namespace Studio

/-- The `since_date` handling of `studio/main.py` `fetch_aws_news` lines
41–44: identical validation, but no `try`/`except` — the `ValueError` from
`datetime.fromisoformat` itself propagates, carrying its own message. -/
def sinceParams (since_date : Option String) : Except String (List (String × String)) :=
  match since_date with
  | none => .ok []
  | some s =>
    if s = "" then .ok []
    else if isoValid (pyReplaceZ s) then .ok [("since", s)]
    else .error (fromisoformatErrMsg s)

/-- `fetch_aws_news` of `studio/main.py`. -/
def fetch_aws_news (topic : String) (news_type : String) (include_regional_expansions : Bool)
    (limit : Int) (since_date : Option String) (http : HttpOracle) :
    Except String ArticlesJson :=
  match sinceParams since_date with
  | .error e => .error e
  | .ok sp => http (baseParams topic news_type include_regional_expansions limit ++ sp)

end Studio

/-! ### Result envelopes and their serialization

Each tool builds a result dict and returns `json.dumps(result, indent=2)`.
We embed the dict as a structure and `json.dumps` as a renderer producing
the same key order; string escaping is not modelled (no claim depends on
it), but every rendered envelope starts with `'{'`, which is what
distinguishes a success payload from an error string. -/

structure NewsEnvelope where
  topic : String
  news_type : String
  include_regional_expansions : Bool
  articles : ArticlesJson
deriving DecidableEq

/-- JSON string literal (escaping not modelled). -/
def jstr (s : String) : String := "\"" ++ s ++ "\""

/-- JSON rendering of Python `True`/`False`/`None`-able values. -/
def jbool (b : Bool) : String := if b then "true" else "false"

def jopt (s : Option String) : String :=
  match s with
  | none => "null"
  | some v => jstr v

/-- Serialization, in the manner of `json.dumps(result, indent=2)`, of the
news-side envelope. -/
def renderNewsEnvelope (e : NewsEnvelope) : String :=
  "\x7b\n  \"topic\": " ++ jstr e.topic
  ++ ",\n  \"news_type\": " ++ jstr e.news_type
  ++ ",\n  \"include_regional_expansions\": " ++ jbool e.include_regional_expansions
  ++ ",\n  \"articles\": " ++ e.articles
  ++ "\n\x7d"

namespace Studio

/-- The `try` body of `studio/main.py` `get_aws_news`: fetch, then shape the
envelope.  Split out so theorems can speak about the envelope fields. -/
def get_aws_news_result (topic news_type : String) (include_regional_expansions : Bool)
    (number_of_results : Int) (since_date : Option String) (http : HttpOracle) :
    Except String NewsEnvelope :=
  (fetch_aws_news topic news_type include_regional_expansions number_of_results
      since_date http).map
    (fun arts => { topic := topic, news_type := news_type,
                   include_regional_expansions := include_regional_expansions,
                   articles := arts })

/-- Tool `get_aws_news` of `studio/main.py` (lines 58–81). -/
def get_aws_news (topic : String) (news_type : String) (include_regional_expansions : Bool)
    (number_of_results : Int) (since_date : Option String) (http : HttpOracle) : String :=
  match get_aws_news_result topic news_type include_regional_expansions
      number_of_results since_date http with
  | .ok env => renderNewsEnvelope env
  | .error e => "Error fetching AWS news: " ++ e

/-- The `try` body of `studio/main.py` `get_aws_announcements`: forces
`news_type="news"` both in the fetch and in the envelope. -/
def get_aws_announcements_result (topic : String) (include_regional_expansions : Bool)
    (number_of_results : Int) (since_date : Option String) (http : HttpOracle) :
    Except String NewsEnvelope :=
  (fetch_aws_news topic "news" include_regional_expansions number_of_results
      since_date http).map
    (fun arts => { topic := topic, news_type := "news",
                   include_regional_expansions := include_regional_expansions,
                   articles := arts })

/-- Tool `get_aws_announcements` of `studio/main.py` (lines 89–111). -/
def get_aws_announcements (topic : String) (include_regional_expansions : Bool)
    (number_of_results : Int) (since_date : Option String) (http : HttpOracle) : String :=
  match get_aws_announcements_result topic include_regional_expansions
      number_of_results since_date http with
  | .ok env => renderNewsEnvelope env
  | .error e => "Error fetching AWS announcements: " ++ e

/-- The `try` body of `studio/main.py` `get_aws_blogs`: forces
`news_type="blogs"` and `include_regional_expansions=False` in the fetch and
echoes `False` in the envelope; the caller has no regional parameter at all. -/
def get_aws_blogs_result (topic : String) (number_of_results : Int)
    (since_date : Option String) (http : HttpOracle) : Except String NewsEnvelope :=
  (fetch_aws_news topic "blogs" false number_of_results since_date http).map
    (fun arts => { topic := topic, news_type := "blogs",
                   include_regional_expansions := false,
                   articles := arts })

/-- Tool `get_aws_blogs` of `studio/main.py` (lines 119–140). -/
def get_aws_blogs (topic : String) (number_of_results : Int)
    (since_date : Option String) (http : HttpOracle) : String :=
  match get_aws_blogs_result topic number_of_results since_date http with
  | .ok env => renderNewsEnvelope env
  | .error e => "Error fetching AWS blogs: " ++ e

end Studio

namespace Streamable

/-- The `try` body of `streamable-HTTP-server/main.py` `get_aws_news`. -/
def get_aws_news_result (topic news_type : String) (include_regional_expansions : Bool)
    (number_of_results : Int) (since_date : Option String) (http : HttpOracle) :
    Except String NewsEnvelope :=
  (fetch_aws_news topic news_type include_regional_expansions number_of_results
      since_date http).map
    (fun arts => { topic := topic, news_type := news_type,
                   include_regional_expansions := include_regional_expansions,
                   articles := arts })

/-- Tool `get_aws_news` of `streamable-HTTP-server/main.py` (lines 106–145). -/
def get_aws_news (topic : String) (news_type : String) (include_regional_expansions : Bool)
    (number_of_results : Int) (since_date : Option String) (http : HttpOracle) : String :=
  match get_aws_news_result topic news_type include_regional_expansions
      number_of_results since_date http with
  | .ok env => renderNewsEnvelope env
  | .error e => "Error fetching AWS news: " ++ e

end Streamable

/-! ### Feed Fetcher (`get_aws_feed_news`)

The feed tool is textually identical in the two server files
(`streamable-HTTP-server/main.py` lines 174–240 and `studio/main.py` lines
148–191), so it is embedded once.  `feedparser.parse` is an external
collaborator; its outcome is a value of `FeedOutcome`: a raised exception
inside the `try` block (`fault`), a `bozo` flag with the parser's
diagnostic, or the list of parsed entries.  A feedparser entry object is
embedded field by field as the code reads it: `entry.get("title", "")` etc.
see `Option`-valued fields defaulted with `getD ""`, and the
`hasattr(entry, "tags")` test sees an `Option`-valued tags collection. -/

structure FeedTag where
  term : String
deriving DecidableEq

structure FeedEntry where
  title : Option String
  description : Option String
  link : Option String
  published : Option String
  tags : Option (List FeedTag)
deriving DecidableEq

structure FeedArticle where
  title : String
  description : String
  url : String
  published_date : String
  tags : Option (List String)
deriving DecidableEq

/-- The keyword filter inside the loop: Python's `if search_keywords:` is
false for `None` and for the empty string (no filtering); otherwise the
entry passes iff the lowercased keyword occurs in the lowercased title or
the lowercased description. -/
def entryMatches (search_keywords : Option String) (e : FeedEntry) : Bool :=
  match search_keywords with
  | none => true
  | some k =>
    if k = "" then true
    else
      pyIn (pyLower k) (pyLower (e.title.getD ""))
        || pyIn (pyLower k) (pyLower (e.description.getD ""))

/-- The `article_info` dict built for an accepted entry, including the
conditional `tags` key (`if hasattr(entry, "tags")`). -/
def mkArticle (e : FeedEntry) : FeedArticle :=
  { title := e.title.getD ""
    description := e.description.getD ""
    url := e.link.getD ""
    published_date := e.published.getD ""
    tags := e.tags.map (fun ts => ts.map FeedTag.term) }

/-- The `for entry in feed.entries:` loop with its accumulator: skip a
non-matching entry (`continue`), otherwise append the article and then
`break` as soon as `len(articles) >= max_articles`.  The length test follows
the append, exactly as in the source. -/
def feedLoop (max_articles : Int) (search_keywords : Option String) :
    List FeedEntry → List FeedArticle → List FeedArticle
  | [], acc => acc
  | e :: es, acc =>
    if entryMatches search_keywords e then
      let acc' := acc ++ [mkArticle e]
      if (acc'.length : Int) ≥ max_articles then acc'
      else feedLoop max_articles search_keywords es acc'
    else feedLoop max_articles search_keywords es acc

/-- The articles list the feed tool collects from the parsed entries. -/
def feedArticles (max_articles : Int) (search_keywords : Option String)
    (entries : List FeedEntry) : List FeedArticle :=
  feedLoop max_articles search_keywords entries []

def feedUrl : String := "https://aws.amazon.com/about-aws/whats-new/recent/feed/"

structure FeedEnvelope where
  source : String
  feed_url : String
  total_articles_returned : Nat
  search_keywords : Option String
  articles : List FeedArticle
deriving DecidableEq

/-- The `result` dict of `get_aws_feed_news` on the success path. -/
def feedEnvelope (max_articles : Int) (search_keywords : Option String)
    (entries : List FeedEntry) : FeedEnvelope :=
  let articles := feedArticles max_articles search_keywords entries
  { source := "AWS What's New Feed"
    feed_url := feedUrl
    total_articles_returned := articles.length
    search_keywords := search_keywords
    articles := articles }

/-- Serialization of one feed article (key order as inserted; the `tags` key
present only when the entry carried one). -/
def renderFeedArticle (a : FeedArticle) : String :=
  "\x7b\"title\": " ++ jstr a.title
  ++ ", \"description\": " ++ jstr a.description
  ++ ", \"url\": " ++ jstr a.url
  ++ ", \"published_date\": " ++ jstr a.published_date
  ++ (match a.tags with
      | none => ""
      | some ts => ", \"tags\": [" ++ String.intercalate ", " (ts.map jstr) ++ "]")
  ++ "\x7d"

/-- Serialization, in the manner of `json.dumps(result, indent=2)`, of the
feed envelope. -/
def renderFeedEnvelope (e : FeedEnvelope) : String :=
  "\x7b\n  \"source\": " ++ jstr e.source
  ++ ",\n  \"feed_url\": " ++ jstr e.feed_url
  ++ ",\n  \"total_articles_returned\": " ++ toString e.total_articles_returned
  ++ ",\n  \"search_keywords\": " ++ jopt e.search_keywords
  ++ ",\n  \"articles\": [" ++ String.intercalate ", " (e.articles.map renderFeedArticle)
  ++ "]\n\x7d"

/-- What `feedparser.parse(feed_url)` (plus anything else inside the `try`)
delivered: an exception raised inside the `try` block, a feed with the
`bozo` flag set and a diagnostic in `bozo_exception`, or the entry list. -/
inductive FeedOutcome where
  | fault (msg : String)
  | bozo (msg : String)
  | entries (es : List FeedEntry)
deriving DecidableEq

/-- Tool `get_aws_feed_news`, identical in both server files: an exception
anywhere in the `try` is caught and rendered; a bozo feed takes the early
`return` with the parser's diagnostic; otherwise the loop runs and the
envelope is serialized. -/
def get_aws_feed_news (max_articles : Int) (search_keywords : Option String)
    (feed : FeedOutcome) : String :=
  match feed with
  | .fault msg => "Error fetching AWS feed: " ++ msg
  | .bozo msg => "Error parsing RSS feed: " ++ msg
  | .entries es =>
    renderFeedEnvelope (feedEnvelope max_articles search_keywords es)

/-! ### Helper lemmas -/

theorem isPrefixOf_append_self (l r : List Char) : l.isPrefixOf (l ++ r) = true := by
  induction l with
  | nil => cases r <;> rfl
  | cons c t ih => simp [List.isPrefixOf, ih]

theorem pyInAux_of_prefix (n h : List Char) (hp : n.isPrefixOf h = true) :
    pyInAux n h = true := by
  cases h with
  | nil => simpa [pyInAux] using hp
  | cons c t => simp [pyInAux, hp]

/-- The loop of the feed tool, run from an arbitrary accumulator, keeps the
accumulator and then takes matching entries from the front — but because the
length test follows the append, it always takes at least one more entry than
the remaining budget would allow when the budget is already exhausted. -/
theorem feedLoop_eq (m : Int) (kw : Option String) (es : List FeedEntry) :
    ∀ acc : List FeedArticle,
      feedLoop m kw es acc
        = acc ++ (((es.filter (entryMatches kw)).map mkArticle).take
            ((m - acc.length).toNat.max 1)) := by
  induction es with
  | nil => intro acc; simp [feedLoop]
  | cons e es ih =>
    intro acc
    by_cases hm : entryMatches kw e
    · rw [show feedLoop m kw (e :: es) acc
          = (if entryMatches kw e then
              (if ((acc ++ [mkArticle e]).length : Int) ≥ m then acc ++ [mkArticle e]
               else feedLoop m kw es (acc ++ [mkArticle e]))
             else feedLoop m kw es acc) from rfl]
      rw [if_pos hm, List.filter_cons_of_pos hm]
      have hlenN : (acc ++ [mkArticle e]).length = acc.length + 1 := by simp
      simp only [hlenN, List.map_cons]
      by_cases hb : ((acc.length + 1 : Nat) : Int) ≥ m
      · rw [if_pos hb]
        have h1 : (m - (acc.length : Int)).toNat.max 1 = 1 :=
          Nat.max_eq_right (by omega)
        rw [h1]
        simp
      · rw [if_neg hb, ih]
        simp only [hlenN]
        have a2 : 1 ≤ (m - ((acc.length + 1 : Nat) : Int)).toNat := by omega
        have a3 : 1 ≤ (m - ((acc.length : Nat) : Int)).toNat := by omega
        have e2 : (m - ((acc.length + 1 : Nat) : Int)).toNat.max 1
            = (m - ((acc.length + 1 : Nat) : Int)).toNat := Nat.max_eq_left a2
        have e3 : (m - ((acc.length : Nat) : Int)).toNat.max 1
            = (m - ((acc.length : Nat) : Int)).toNat := Nat.max_eq_left a3
        have h2 : (m - ((acc.length : Nat) : Int)).toNat.max 1
            = ((m - ((acc.length + 1 : Nat) : Int)).toNat.max 1) + 1 := by
          rw [e2, e3]
          omega
        rw [h2, List.take_succ_cons]
        simp
    · rw [show feedLoop m kw (e :: es) acc
          = (if entryMatches kw e then
              (if ((acc ++ [mkArticle e]).length : Int) ≥ m then acc ++ [mkArticle e]
               else feedLoop m kw es (acc ++ [mkArticle e]))
             else feedLoop m kw es acc) from rfl]
      rw [if_neg hm, List.filter_cons_of_neg (by simpa using hm), ih]

/-- The collected feed articles are the matching entries, mapped to articles,
truncated at `max maxArticles 1`. -/
theorem feedArticles_eq (m : Int) (kw : Option String) (es : List FeedEntry) :
    feedArticles m kw es
      = ((es.filter (entryMatches kw)).map mkArticle).take (m.toNat.max 1) := by
  rw [feedArticles, feedLoop_eq]
  simp

/-! ### Claims -/

/-- C7: whenever the RSS parse reports a malformed-document condition,
`get_aws_feed_news` returns (does not throw) the string
`"Error parsing RSS feed: "` followed by the parser's diagnostic; the string
contains `"Error parsing RSS feed"`, begins with `E`, and is therefore not a
rendered envelope, every one of which begins with a brace — no partial
envelope is produced. -/
theorem feed_bozo_error_shape (m : Int) (kw : Option String) (msg : String) :
    get_aws_feed_news m kw (.bozo msg) = "Error parsing RSS feed: " ++ msg
    ∧ pyIn "Error parsing RSS feed" (get_aws_feed_news m kw (.bozo msg)) = true
    ∧ (get_aws_feed_news m kw (.bozo msg)).data.head? = some 'E'
    ∧ ∀ env : FeedEnvelope, (renderFeedEnvelope env).data.head? = some '\x7b' := by
  refine ⟨rfl, ?_, ?_, fun env => ?_⟩
  · apply pyInAux_of_prefix
    rw [show get_aws_feed_news m kw (.bozo msg)
        = "Error parsing RSS feed: " ++ msg from rfl]
    have hsplit : ("Error parsing RSS feed: " ++ msg).data
        = "Error parsing RSS feed".data ++ (": ".data ++ msg.data) := by
      rw [String.data_append,
        show ("Error parsing RSS feed: ").data
            = "Error parsing RSS feed".data ++ ": ".data from by decide,
        List.append_assoc]
    rw [hsplit]
    exact isPrefixOf_append_self _ _
  · rfl
  · rfl

/-- C9 counterexample: an entry exposing an *empty* tags collection produces
an article that carries `tags = some []` — an empty list is emitted,
contrary to the claim that one never is. -/
theorem tags_empty_list_counterexample :
    feedArticles 10 none
      [{ title := some "t", description := some "d", link := some "l",
         published := some "p", tags := some [] }]
      = [{ title := "t", description := "d", url := "l", published_date := "p",
           tags := some [] }] := by decide

/-- C9 (amended): the produced article's tags field is exactly the entry's
tags collection mapped to its term values — present iff the entry exposes a
collection, omitted when absent, and an empty list appears exactly when the
exposed collection is empty. -/
theorem tags_field_mapping (e : FeedEntry) :
    (mkArticle e).tags = e.tags.map (fun ts => ts.map FeedTag.term)
    ∧ (mkArticle e).tags.isSome = e.tags.isSome := by
  refine ⟨rfl, ?_⟩
  cases h : e.tags <;> simp [mkArticle, h]

/-- C10: for every successful `get_aws_feed_news` invocation the envelope's
`total_articles_returned` equals the length of its articles list, and the
envelope carries the fixed source label, the fixed feed URL, and the echoed
`search_keywords`. -/
theorem feed_envelope_invariants (m : Int) (kw : Option String) (es : List FeedEntry) :
    (feedEnvelope m kw es).total_articles_returned
        = (feedEnvelope m kw es).articles.length
    ∧ (feedEnvelope m kw es).source = "AWS What's New Feed"
    ∧ (feedEnvelope m kw es).feed_url = feedUrl
    ∧ (feedEnvelope m kw es).search_keywords = kw
    ∧ get_aws_feed_news m kw (.entries es)
        = renderFeedEnvelope (feedEnvelope m kw es) :=
  ⟨rfl, rfl, rfl, rfl, rfl⟩

/-- C3 counterexample: with `max_articles = 0` and a single (matching)
entry, the loop appends the entry and only then tests the limit, so one
article is returned, not zero. -/
theorem max_articles_zero_counterexample :
    (feedArticles 0 none
      [{ title := some "t", description := some "d", link := some "l",
         published := some "p", tags := none }]).length = 1 := by decide

/-- C3 (amended): the returned articles are the matching entries taken from
the front of document order, truncated at `max maxArticles 1` — at most
`maxArticles` entries when `maxArticles ≥ 1`, but because the limit test
follows the append, `maxArticles = 0` yields up to one article, not zero.
The scan halts once the limit is reached: entries past that point cannot
affect the result. -/
theorem feed_truncation_characterization (m : Int) (kw : Option String)
    (es es2 : List FeedEntry) :
    feedArticles m kw es
        = ((es.filter (entryMatches kw)).map mkArticle).take (m.toNat.max 1)
    ∧ (feedArticles m kw es).length ≤ m.toNat.max 1
    ∧ (m.toNat.max 1 ≤ (es.filter (entryMatches kw)).length →
        feedArticles m kw (es ++ es2) = feedArticles m kw es) := by
  refine ⟨feedArticles_eq m kw es, ?_, ?_⟩
  · rw [feedArticles_eq]
    exact List.length_take_le _ _
  · intro h
    rw [feedArticles_eq, feedArticles_eq, List.filter_append, List.map_append]
    exact List.take_append_of_le_length (by simpa using h)

/-- Witness for the implication of the C3 theorem at a concrete input. -/
theorem feed_truncation_characterization_witness :
    (1 : Int).toNat.max 1
        ≤ ([({ title := some "t", description := some "d", link := some "l",
               published := some "p", tags := none } : FeedEntry)].filter
            (entryMatches none)).length
    ∧ feedArticles 1 none
        ([({ title := some "t", description := some "d", link := some "l",
             published := some "p", tags := none } : FeedEntry)]
          ++ [({ title := some "u", description := some "e", link := some "k",
                 published := some "q", tags := none } : FeedEntry)])
        = feedArticles 1 none
            [({ title := some "t", description := some "d", link := some "l",
                published := some "p", tags := none } : FeedEntry)] :=
  ⟨by decide, (feed_truncation_characterization 1 none _ _).2.2 (by decide)⟩

/-- C4: with a non-empty keyword, an entry is kept iff the lowercased
keyword occurs as a substring of the lowercased title or of the lowercased
description; a failing entry is skipped and does not count toward the
limit (removing it leaves the result unchanged). -/
theorem keyword_filter_semantics (k : String) (hk : k ≠ "") (e : FeedEntry)
    (m : Int) (es : List FeedEntry) :
    entryMatches (some k) e
        = (pyIn (pyLower k) (pyLower (e.title.getD ""))
            || pyIn (pyLower k) (pyLower (e.description.getD "")))
    ∧ (entryMatches (some k) e = false →
        feedArticles m (some k) (e :: es) = feedArticles m (some k) es) := by
  constructor
  · simp [entryMatches, hk]
  · intro hf
    simp [feedArticles, feedLoop, hf]

/-- Witness for the C4 theorem at a concrete non-matching entry. -/
theorem keyword_filter_semantics_witness :
    ("lambda" : String) ≠ ""
    ∧ entryMatches (some "lambda")
        { title := some "S3 update", description := some "about storage",
          link := some "l", published := some "p", tags := none } = false
    ∧ feedArticles 3 (some "lambda")
        ({ title := some "S3 update", description := some "about storage",
           link := some "l", published := some "p", tags := none } :: [])
        = feedArticles 3 (some "lambda") [] :=
  ⟨by decide, by decide,
   (keyword_filter_semantics "lambda" (by decide)
      { title := some "S3 update", description := some "about storage",
        link := some "l", published := some "p", tags := none } 3 []).2 (by decide)⟩

/-- The `article_type` entry of the built parameters is exactly what
`articleTypeFilter` computed (the three unconditional keys differ from it). -/
theorem lookup_article_type (topic nt : String) (inc : Bool) (lim : Int) :
    (baseParams topic nt inc lim).lookup "article_type" = articleTypeFilter nt := by
  rcases h : articleTypeFilter nt with _ | t <;>
    simp [baseParams, h, List.lookup]

/-- C1: every Tool Façade operation — `get_aws_news` (both variants),
`get_aws_announcements`, `get_aws_blogs`, `get_aws_feed_news` — returns a
string for every input and every fetcher outcome, and on any failure that
string has the form `"Error <context>: <message>"`. -/
theorem tool_facade_total_contract
    (topic news_kind : String) (inc : Bool) (n : Int) (since : Option String)
    (http : HttpOracle) (m : Int) (kw : Option String) (feed : FeedOutcome) :
    ((∃ env, Studio.get_aws_news topic news_kind inc n since http
        = renderNewsEnvelope env)
      ∨ (∃ msg, Studio.get_aws_news topic news_kind inc n since http
          = "Error fetching AWS news: " ++ msg))
    ∧ ((∃ env, Studio.get_aws_announcements topic inc n since http
        = renderNewsEnvelope env)
      ∨ (∃ msg, Studio.get_aws_announcements topic inc n since http
          = "Error fetching AWS announcements: " ++ msg))
    ∧ ((∃ env, Studio.get_aws_blogs topic n since http = renderNewsEnvelope env)
      ∨ (∃ msg, Studio.get_aws_blogs topic n since http
          = "Error fetching AWS blogs: " ++ msg))
    ∧ ((∃ env, Streamable.get_aws_news topic news_kind inc n since http
        = renderNewsEnvelope env)
      ∨ (∃ msg, Streamable.get_aws_news topic news_kind inc n since http
          = "Error fetching AWS news: " ++ msg))
    ∧ ((∃ env, get_aws_feed_news m kw feed = renderFeedEnvelope env)
      ∨ (∃ msg, get_aws_feed_news m kw feed = "Error fetching AWS feed: " ++ msg)
      ∨ (∃ msg, get_aws_feed_news m kw feed = "Error parsing RSS feed: " ++ msg)) := by
  refine ⟨?_, ?_, ?_, ?_, ?_⟩
  · cases h : Studio.get_aws_news_result topic news_kind inc n since http with
    | ok env => exact .inl ⟨env, by simp [Studio.get_aws_news, h]⟩
    | error e => exact .inr ⟨e, by simp [Studio.get_aws_news, h]⟩
  · cases h : Studio.get_aws_announcements_result topic inc n since http with
    | ok env => exact .inl ⟨env, by simp [Studio.get_aws_announcements, h]⟩
    | error e => exact .inr ⟨e, by simp [Studio.get_aws_announcements, h]⟩
  · cases h : Studio.get_aws_blogs_result topic n since http with
    | ok env => exact .inl ⟨env, by simp [Studio.get_aws_blogs, h]⟩
    | error e => exact .inr ⟨e, by simp [Studio.get_aws_blogs, h]⟩
  · cases h : Streamable.get_aws_news_result topic news_kind inc n since http with
    | ok env => exact .inl ⟨env, by simp [Streamable.get_aws_news, h]⟩
    | error e => exact .inr ⟨e, by simp [Streamable.get_aws_news, h]⟩
  · cases feed with
    | fault msg => exact .inr (.inl ⟨msg, rfl⟩)
    | bozo msg => exact .inr (.inr ⟨msg, rfl⟩)
    | entries es => exact .inl ⟨feedEnvelope m kw es, rfl⟩

/-- C2 counterexample: the empty string is not valid ISO-8601 yet both
builders let it pass (Python's `if since_date:` is false for `""`, so no
validation and no failure — the call proceeds), and on a genuinely malformed
date the studio builder fails with the ISO parser's own message, which is
not the fixed one. -/
theorem since_date_fixed_message_counterexample :
    Streamable.fetch_aws_news "s3" "all" false 40 (some "")
        (fun _ => (Except.ok "[]" : Except String ArticlesJson)) = .ok "[]"
    ∧ isoValid (pyReplaceZ "") = false
    ∧ Studio.fetch_aws_news "s3" "all" false 40 (some "invalid-date")
        (fun _ => (Except.ok "[]" : Except String ArticlesJson))
        = .error (fromisoformatErrMsg "invalid-date")
    ∧ (fromisoformatErrMsg "invalid-date" == invalidDateMsg) = false := by
  refine ⟨rfl, by decide, rfl, by decide⟩

/-- C2 (amended): for every *non-empty* `since_date` string that the ISO
test rejects, the streamable-HTTP-server builder fails with exactly the
fixed message while the studio builder fails with the ISO parser's own
message; in both variants the result is the same for every HTTP oracle, so
no outbound call is made. -/
theorem since_date_invalid_rejected
    (topic nt : String) (inc : Bool) (lim : Int) (s : String)
    (http http2 : HttpOracle)
    (hne : s ≠ "") (hiso : isoValid (pyReplaceZ s) = false) :
    Streamable.fetch_aws_news topic nt inc lim (some s) http = .error invalidDateMsg
    ∧ Studio.fetch_aws_news topic nt inc lim (some s) http2
        = .error (fromisoformatErrMsg s) := by
  constructor
  · simp [Streamable.fetch_aws_news, Streamable.sinceParams, hne, hiso]
  · simp [Studio.fetch_aws_news, Studio.sinceParams, hne, hiso]

/-- Witness for the C2 amended theorem at `since_date = "invalid-date"`. -/
theorem since_date_invalid_rejected_witness :
    ("invalid-date" : String) ≠ ""
    ∧ isoValid (pyReplaceZ "invalid-date") = false
    ∧ Streamable.fetch_aws_news "s3" "all" false 40 (some "invalid-date")
        (fun _ => (Except.ok "[]" : Except String ArticlesJson))
        = .error invalidDateMsg
    ∧ Studio.fetch_aws_news "s3" "all" false 40 (some "invalid-date")
        (fun _ => (Except.ok "[]" : Except String ArticlesJson))
        = .error (fromisoformatErrMsg "invalid-date") :=
  ⟨by decide, by decide,
   (since_date_invalid_rejected "s3" "all" false 40 "invalid-date"
      (fun _ => (Except.ok "[]" : Except String ArticlesJson))
      (fun _ => (Except.ok "[]" : Except String ArticlesJson))
      (by decide) (by decide)).1,
   (since_date_invalid_rejected "s3" "all" false 40 "invalid-date"
      (fun _ => (Except.ok "[]" : Except String ArticlesJson))
      (fun _ => (Except.ok "[]" : Except String ArticlesJson))
      (by decide) (by decide)).2⟩

/-- C5: the query builder maps `news_type` case-insensitively — `"news"` to
the `article_type` filter `"news"`, `"blogs"`/`"blog"` to `"blog"`, and any
other value to no filter at all, with no error: with no `since_date` the
fetch always reaches the oracle with the built parameters. -/
theorem news_type_filter_mapping (nt topic : String) (inc : Bool) (lim : Int)
    (http : HttpOracle) :
    (pyLower nt = "news" →
        articleTypeFilter nt = some "news"
        ∧ (baseParams topic nt inc lim).lookup "article_type" = some "news")
    ∧ ((pyLower nt = "blogs" ∨ pyLower nt = "blog") →
        articleTypeFilter nt = some "blog"
        ∧ (baseParams topic nt inc lim).lookup "article_type" = some "blog")
    ∧ (pyLower nt ≠ "news" → pyLower nt ≠ "blogs" → pyLower nt ≠ "blog" →
        articleTypeFilter nt = none
        ∧ (baseParams topic nt inc lim).lookup "article_type" = none)
    ∧ Streamable.fetch_aws_news topic nt inc lim none http
        = http (baseParams topic nt inc lim)
    ∧ Studio.fetch_aws_news topic nt inc lim none http
        = http (baseParams topic nt inc lim) := by
  refine ⟨?_, ?_, ?_, ?_, ?_⟩
  · intro h
    have ha : articleTypeFilter nt = some "news" := by simp [articleTypeFilter, h]
    exact ⟨ha, by rw [lookup_article_type, ha]⟩
  · intro h
    have ha : articleTypeFilter nt = some "blog" := by
      rcases h with h | h <;> simp [articleTypeFilter, h]
    exact ⟨ha, by rw [lookup_article_type, ha]⟩
  · intro h1 h2 h3
    have ha : articleTypeFilter nt = none := by
      simp [articleTypeFilter, h1, h2, h3]
    exact ⟨ha, by rw [lookup_article_type, ha]⟩
  · simp [Streamable.fetch_aws_news, Streamable.sinceParams]
  · simp [Studio.fetch_aws_news, Studio.sinceParams]

/-- Witness for the C5 theorem, exercising each branch at concrete
`news_type` values `"News"`, `"BLOGS"`, `"blog"`, `"all"`. -/
theorem news_type_filter_mapping_witness :
    (pyLower "News" = "news"
      ∧ articleTypeFilter "News" = some "news"
      ∧ (baseParams "s3" "News" false 40).lookup "article_type" = some "news")
    ∧ (articleTypeFilter "BLOGS" = some "blog"
      ∧ (baseParams "s3" "BLOGS" false 40).lookup "article_type" = some "blog")
    ∧ (articleTypeFilter "blog" = some "blog")
    ∧ (articleTypeFilter "all" = none
      ∧ (baseParams "s3" "all" false 40).lookup "article_type" = none) :=
  ⟨⟨by decide,
    (news_type_filter_mapping "News" "s3" false 40
      (fun _ => (Except.ok "[]" : Except String ArticlesJson))).1 (by decide)⟩,
   ((news_type_filter_mapping "BLOGS" "s3" false 40
      (fun _ => (Except.ok "[]" : Except String ArticlesJson))).2.1
        (Or.inl (by decide))),
   ((news_type_filter_mapping "blog" "s3" false 40
      (fun _ => (Except.ok "[]" : Except String ArticlesJson))).2.1
        (Or.inr (by decide))).1,
   ((news_type_filter_mapping "all" "s3" false 40
      (fun _ => (Except.ok "[]" : Except String ArticlesJson))).2.2.1
        (by decide) (by decide) (by decide))⟩

/-- C6: `get_aws_blogs` always builds its query with
`include_regional_expansions = false` — the rendered
`hide_regional_expansions` parameter is `"True"` — and every success
envelope echoes `include_regional_expansions = false`, regardless of caller
input (the operation takes no regional parameter at all). -/
theorem blogs_regional_false (topic : String) (n : Int) (since : Option String)
    (http : HttpOracle) :
    (baseParams topic "blogs" false n).lookup "hide_regional_expansions"
        = some (pyBoolStr true)
    ∧ ∀ env, Studio.get_aws_blogs_result topic n since http = .ok env →
        env.include_regional_expansions = false
        ∧ Studio.get_aws_blogs topic n since http = renderNewsEnvelope env := by
  constructor
  · rfl
  · intro env h
    have hmain : Studio.get_aws_blogs topic n since http = renderNewsEnvelope env := by
      simp [Studio.get_aws_blogs, h]
    refine ⟨?_, hmain⟩
    cases hf : Studio.fetch_aws_news topic "blogs" false n since http with
    | error e => simp [Studio.get_aws_blogs_result, hf, Except.map] at h
    | ok arts =>
      simp [Studio.get_aws_blogs_result, hf, Except.map] at h
      subst h
      rfl

/-- Witness for the C6 theorem at a concrete successful call. -/
theorem blogs_regional_false_witness :
    Studio.get_aws_blogs_result "s3" 40 none
        (fun _ => (Except.ok "[]" : Except String ArticlesJson))
      = .ok (⟨"s3", "blogs", false, "[]"⟩ : NewsEnvelope)
    ∧ (⟨"s3", "blogs", false, "[]"⟩ : NewsEnvelope).include_regional_expansions = false
    ∧ Studio.get_aws_blogs "s3" 40 none
        (fun _ => (Except.ok "[]" : Except String ArticlesJson))
      = renderNewsEnvelope (⟨"s3", "blogs", false, "[]"⟩ : NewsEnvelope) := by
  have h : Studio.get_aws_blogs_result "s3" 40 none
      (fun _ => (Except.ok "[]" : Except String ArticlesJson))
    = .ok (⟨"s3", "blogs", false, "[]"⟩ : NewsEnvelope) := rfl
  exact ⟨h,
    ((blogs_regional_false "s3" 40 none
        (fun _ => (Except.ok "[]" : Except String ArticlesJson))).2 _ h).1,
    ((blogs_regional_false "s3" 40 none
        (fun _ => (Except.ok "[]" : Except String ArticlesJson))).2 _ h).2⟩

/-- C8: every `since_date` the ISO test accepts (after the `Z`
substitution) is passed through to the request as the `"since"` parameter
in its original, unmodified form, in both variants; the substituted form is
used only for validation. -/
theorem since_date_passthrough (topic nt : String) (inc : Bool) (lim : Int)
    (s : String) (http : HttpOracle)
    (hv : isoValid (pyReplaceZ s) = true) :
    Streamable.fetch_aws_news topic nt inc lim (some s) http
        = http (baseParams topic nt inc lim ++ [("since", s)])
    ∧ Studio.fetch_aws_news topic nt inc lim (some s) http
        = http (baseParams topic nt inc lim ++ [("since", s)]) := by
  have hne : s ≠ "" := by
    intro h
    rw [h] at hv
    exact absurd hv (by decide)
  constructor
  · simp [Streamable.fetch_aws_news, Streamable.sinceParams, hne, hv]
  · simp [Studio.fetch_aws_news, Studio.sinceParams, hne, hv]

/-- Witness for the C8 theorem at a trailing-`Z` date. -/
theorem since_date_passthrough_witness :
    isoValid (pyReplaceZ "2025-05-01T00:00:00Z") = true
    ∧ Streamable.fetch_aws_news "s3" "all" false 40 (some "2025-05-01T00:00:00Z")
        (fun _ => (Except.ok "[]" : Except String ArticlesJson))
      = (fun _ => (Except.ok "[]" : Except String ArticlesJson))
          (baseParams "s3" "all" false 40 ++ [("since", "2025-05-01T00:00:00Z")])
    ∧ Studio.fetch_aws_news "s3" "all" false 40 (some "2025-05-01T00:00:00Z")
        (fun _ => (Except.ok "[]" : Except String ArticlesJson))
      = (fun _ => (Except.ok "[]" : Except String ArticlesJson))
          (baseParams "s3" "all" false 40 ++ [("since", "2025-05-01T00:00:00Z")]) :=
  ⟨by decide,
   (since_date_passthrough "s3" "all" false 40 "2025-05-01T00:00:00Z"
      (fun _ => (Except.ok "[]" : Except String ArticlesJson)) (by decide)).1,
   (since_date_passthrough "s3" "all" false 40 "2025-05-01T00:00:00Z"
      (fun _ => (Except.ok "[]" : Except String ArticlesJson)) (by decide)).2⟩

end AwsNews
